import Mathlib

/-!
Verification of the Health_tracker_analysis_streamlit repository:
a shallow embedding of the dataset cleaner (clean.py) and of the
food-matching / quantity-parsing / nutrition-aggregation core
(Health_tracker_1.py), with theorems settling the specification claims.

Numeric values are modelled as exact rationals (ℚ); strings as Lean
strings over the same character operations Python uses on ASCII input.
-/

namespace HealthTracker

/-! ## Python string primitives used by the source -/

/-- Python `str.lower()` on a string (character-wise lowering, as the
source only feeds it ASCII text). -/
def pyLower (s : String) : String := String.mk (s.data.map Char.toLower)

/-- Contiguous-occurrence check on character lists. -/
def listIsInfix (needle : List Char) : List Char → Bool
  | [] => needle.isEmpty
  | h :: t => needle.isPrefixOf (h :: t) || listIsInfix needle t

/-- Python `needle in hay` substring containment (also the model of
`pandas.Series.str.contains` for patterns without regex
metacharacters, which is how the source uses it). -/
def containsSub (hay needle : String) : Bool := listIsInfix needle.data hay.data

/-- Whitespace-run splitting on character lists; `acc` holds the
characters of the token being read, in reverse. -/
def wsSplitAux : List Char → List Char → List (List Char)
  | [], acc => if acc.isEmpty then [] else [acc.reverse]
  | c :: rest, acc =>
    if c.isWhitespace then
      if acc.isEmpty then wsSplitAux rest []
      else acc.reverse :: wsSplitAux rest []
    else wsSplitAux rest (c :: acc)

/-- Python `str.split()` with no separator: split on whitespace runs,
dropping empty pieces (leading/trailing whitespace included, so a
preceding `strip()` is a no-op for this model). -/
def pySplit (s : String) : List String :=
  (wsSplitAux s.data []).map String.mk

/-- Equality of `Except` results is decidable componentwise. -/
instance {ε α : Type} [DecidableEq ε] [DecidableEq α] :
    DecidableEq (Except ε α) := fun a b =>
  match a, b with
  | .error e₁, .error e₂ =>
      decidable_of_iff (e₁ = e₂)
        (by constructor
            · intro h; rw [h]
            · intro h; injection h)
  | .error _, .ok _ => isFalse (fun h => Except.noConfusion h)
  | .ok _, .error _ => isFalse (fun h => Except.noConfusion h)
  | .ok a₁, .ok a₂ =>
      decidable_of_iff (a₁ = a₂)
        (by constructor
            · intro h; rw [h]
            · intro h; injection h)

/-- Drop one leading `+`/`-` sign, if present. -/
def dropSign : List Char → List Char
  | [] => []
  | c :: rest => if c == '+' || c == '-' then rest else c :: rest

/-- Mantissa of a Python float literal: `digits`, `digits.`, `.digits`
or `digits.digits`. -/
def mantissaOK (cs : List Char) : Bool :=
  let intPart := cs.takeWhile Char.isDigit
  let rest := cs.dropWhile Char.isDigit
  match rest with
  | [] => !intPart.isEmpty
  | c :: frac =>
      c == '.' && frac.all Char.isDigit && (!intPart.isEmpty || !frac.isEmpty)

/-- Exponent digits of a Python float literal (after the `e`/`E`):
optional sign then a nonempty digit run. -/
def expDigitsOK (cs : List Char) : Bool :=
  let ds := dropSign cs
  !ds.isEmpty && ds.all Char.isDigit

/-- Decimal float numeral after the optional leading sign: mantissa with
an optional `e`/`E` exponent part. -/
def floatNumeralOK (cs : List Char) : Bool :=
  let mant := cs.takeWhile (fun c => !(c == 'e' || c == 'E'))
  let rest := cs.dropWhile (fun c => !(c == 'e' || c == 'E'))
  match rest with
  | [] => mantissaOK mant
  | _ :: exps => mantissaOK mant && expDigitsOK exps

/-- Success of Python `float(token)` on a whitespace-free token, as used
by clean.py line 58: optional sign, then `inf`/`infinity`/`nan`
(case-insensitive) or a decimal numeral with optional fraction and
exponent. (Underscore digit separators, which Python also accepts, do
not occur in the data and are not modelled.) -/
def isFloatToken (s : String) : Bool :=
  let cs := dropSign s.data
  let low := cs.map Char.toLower
  low == "inf".data || low == "infinity".data || low == "nan".data ||
    floatNumeralOK cs

/-! ## Dataset cleaner (clean.py, `clean_food_dataset`) -/

/-- Python `parts[-n:]`: the last `n` elements of a list. -/
def lastN (n : Nat) (l : List α) : List α := (l.reverse.take n).reverse

/-- The numeric-token scan of clean.py lines 54–62: walk the candidate
tokens left to right, keeping those that parse as floats, and stop at
the first failure (the `break`). -/
def floatPrefixRun : List String → List String
  | [] => []
  | t :: ts => if isFloatToken t then t :: floatPrefixRun ts else []

/-- One data row of `clean_food_dataset` (lines 41–75), starting from its
whitespace tokens: skip rows with fewer than 6 tokens; scan the last 5
tokens for a float run; skip when the run has fewer than 4 tokens;
otherwise the description is the underscore-join of everything before
the kept run. -/
def cleanRowTokens (parts : List String) : Option (String × List String) :=
  if parts.length < 6 then none
  else if (floatPrefixRun (lastN 5 parts)).length < 4 then none
  else
    some (String.intercalate "_"
            (parts.take (parts.length - (floatPrefixRun (lastN 5 parts)).length)),
          floatPrefixRun (lastN 5 parts))

/-- One data line: strip/tokenize then clean, rendering the kept row as a
tab-separated line (clean.py line 74). -/
def cleanLine (line : String) : Option String :=
  (cleanRowTokens (pySplit line)).map
    (fun dn => dn.1 ++ "\t" ++ String.intercalate "\t" dn.2)

/-- Header handling of clean.py lines 25–38. -/
def cleanHeader (line : String) : String :=
  let header_parts := pySplit line
  if header_parts.length > 6 then
    let description_parts := header_parts.take (header_parts.length - 5)
    let numeric_headers := header_parts.drop (header_parts.length - 5)
    String.intercalate "_" description_parts ++ "\t" ++
      String.intercalate "\t" numeric_headers
  else
    String.intercalate "\t" header_parts

/-- The cleaned lines written by `clean_food_dataset`: `none` on empty
input (the function prints an error and returns None), otherwise the
processed header followed by the kept data rows. -/
def cleanedLines : List String → Option (List String)
  | [] => none
  | h :: rest => some (cleanHeader h :: rest.filterMap cleanLine)

/-- Modelled from the spec's words (§4.1: "keep, from the right, the
maximal contiguous run of tokens that parse as floating-point
numbers"): the maximal suffix of a token list whose tokens all parse
as floats. -/
def spec_trailing_float_run (l : List String) : List String :=
  (l.reverse.takeWhile isFloatToken).reverse

/-! ## Dataframe model (Health_tracker_1.py) -/

/-- A cell of the nutrition dataframe. -/
inductive Val where
  | str (s : String)
  | num (q : ℚ)
deriving DecidableEq

/-- A dataframe row: an association list from column name to cell. -/
abbrev Row := List (String × Val)

/-- String content of a row at a column (pandas gives the description
column string values; missing/non-string yields the neutral value). -/
def strAt (r : Row) (c : String) : String :=
  match r.lookup c with
  | some (.str s) => s
  | _ => ""

/-- Numeric content of a row at a column. -/
def numAt (r : Row) (c : String) : ℚ :=
  match r.lookup c with
  | some (.num q) => q
  | _ => 0

/-- A pandas DataFrame: its column index plus its rows. Column access on
the frame or on one of its rows raises `KeyError` exactly when the
column is not in `cols`. -/
structure DataFrame where
  cols : List String
  rows : List Row
deriving DecidableEq

/-- Python exceptions surfaced by the embedded code. -/
inductive PyErr where
  | keyError
  | typeError
deriving DecidableEq

def descrCol : String := "Main food description"
def energyCol : String := "Energy (kcal)"
def proteinCol : String := "Protein (g)"
def carbCol : String := "Carbohydrate (g)"
def fatCol : String := "Total Fat (g)"

/-- The allow-list of `load_food_dataset` (lines 47–58). -/
def nutrition_columns : List String :=
  [descrCol, energyCol, proteinCol, carbCol,
   "Sugars, total (g)", "Fiber, total dietary (g)", fatCol,
   "Cholesterol (mg)", "Sodium (mg)", "Calcium (mg)"]

/-- Column projection performed by `load_food_dataset` (lines 60–64):
keep, in allow-list order, the nutrition columns present in the
source file. -/
def load_projection (srcCols : List String) : List String :=
  nutrition_columns.filter (fun c => srcCols.contains c)

/-- The five columns `find_food_calories` reads unconditionally. -/
def matcher_columns : List String :=
  [descrCol, energyCol, proteinCol, carbCol, fatCol]

/-- Whether a dataframe carries every column the matcher reads. -/
def hasMatcherCols (ds : DataFrame) : Bool :=
  matcher_columns.all (fun c => ds.cols.contains c)

/-! ## Food matcher (`find_food_calories`, lines 68–108) -/

/-- How a record was selected. -/
inductive MatchType where
  | exact
  | substring
deriving DecidableEq

/-- Result of `find_food_calories`: the no-match sentinel dict (all
nutrient values zero, match_type "No match found"), or a matched
record with its scaled nutrient values. -/
inductive FoodInfo where
  | noMatch
  | found (matchType : MatchType) (food_description : String)
      (calories protein carbs fat : ℚ)
deriving DecidableEq

/-- The exact-pass predicate (line 76): lower-cased description equals
the lower-cased query. -/
def isExactMatch (fn : String) (r : Row) : Bool :=
  pyLower (strAt r descrCol) == fn

/-- The partial-pass predicate (line 80): lower-cased description
contains the lower-cased query as a substring. -/
def isPartialHit (fn : String) (r : Row) : Bool :=
  containsSub (pyLower (strAt r descrCol)) fn

/-- The value-extraction step on a selected record (lines 98–108): each
nutrient column access on the record raises KeyError when the frame
lacks that column; otherwise the stored values are multiplied by 100. -/
def rowInfo (r : Row) (mt : MatchType) : FoodInfo :=
  .found mt (strAt r descrCol)
    (100 * numAt r energyCol) (100 * numAt r proteinCol)
    (100 * numAt r carbCol) (100 * numAt r fatCol)

/-- Extraction with the column-presence checks pandas performs. -/
def extractRow (ds : DataFrame) (r : Row) (mt : MatchType) :
    Except PyErr FoodInfo :=
  if ds.cols.contains energyCol && ds.cols.contains proteinCol &&
      ds.cols.contains carbCol && ds.cols.contains fatCol then
    .ok (rowInfo r mt)
  else .error .keyError

/-- `find_food_calories` (lines 68–108): lower-case the query; exact
pass over the description column (KeyError when the frame lacks it);
if it selects nothing, partial/substring pass; first record in row
order on either pass; the sentinel when both passes select nothing. -/
def find_food_calories (food_name : String) (ds : DataFrame) :
    Except PyErr FoodInfo :=
  if ds.cols.contains descrCol then
    match (ds.rows.filter (isExactMatch (pyLower food_name))).head? with
    | some r => extractRow ds r .exact
    | none =>
      match (ds.rows.filter (isPartialHit (pyLower food_name))).head? with
      | some r => extractRow ds r .substring
      | none => .ok .noMatch
  else .error .keyError

/-! ## Quantity parsing and aggregation (`calculate_nutritional_info`,
lines 110–185) -/

/-- Numeric value of a digit run, as Python `float` of the digit
string. -/
def digitsVal (l : List Char) : ℚ :=
  ((l.foldl (fun n c => 10 * n + (c.toNat - 48)) 0 : Nat) : ℚ)

/-- Quantity parsing of lines 138–144: the magnitude is `float` of all
decimal digits of the string (failure, caught by the bare `except`,
exactly when there are none); the unit is all alphabetic characters,
lower-cased. -/
def parseQuantity (qs : String) : Option (ℚ × String) :=
  let ds := qs.data.filter Char.isDigit
  if ds.isEmpty then none
  else some (digitsVal ds, String.mk ((qs.data.filter Char.isAlpha).map Char.toLower))

/-- The fixed unit table of lines 147–151 with the `.get(unit, 1)`
default of line 154. -/
def unit_multipliers (u : String) : ℚ :=
  if u = "g" then 1 else if u = "ml" then 1 else if u = "piece" then 100 else 1

/-- The per-entry scale factor (lines 139–154): parsed magnitude divided
by 100, times the unit multiplier. -/
def entryScaleFactor (qs : String) : Option ℚ :=
  match parseQuantity qs with
  | none => none
  | some (q, u) => some (q / 100 * unit_multipliers u)

/-- One food entry submitted by the user. -/
structure Entry where
  name : String
  quantity : String
deriving DecidableEq

/-- One breakdown line (line 175), kept structured: the rendered string
interpolates exactly these fields. -/
structure BreakdownLine where
  food_description : String
  quantity_str : String
  calories : ℚ
  protein : ℚ
  carbs : ℚ
  fat : ℚ
deriving DecidableEq

/-- The dict returned by `calculate_nutritional_info` (lines 178–185);
`breakdown` is kept as the list of lines the source joins with
newlines. -/
structure CalcResult where
  total_calories : ℚ
  total_protein : ℚ
  total_carbs : ℚ
  total_fat : ℚ
  breakdown : List BreakdownLine
  unmatched_foods : List String
deriving DecidableEq

/-- The initial accumulator (lines 122–127). -/
def initResult : CalcResult := ⟨0, 0, 0, 0, [], []⟩

/-- The loop body of lines 129–176 for one entry: skip entries whose
name does not contain the query item (case-insensitive); a failed
quantity parse records the name as unmatched; then the matcher runs —
a raised exception propagates (the `try` only guards the quantity
parse) — the sentinel records the name as unmatched, and a match adds
the scaled values to the totals and appends a breakdown line. -/
def processEntry (query_item : String) (ds : DataFrame) (acc : CalcResult)
    (e : Entry) : Except PyErr CalcResult :=
  if !(containsSub (pyLower e.name) (pyLower query_item)) then .ok acc
  else
    match parseQuantity e.quantity with
    | none => .ok { acc with unmatched_foods := acc.unmatched_foods ++ [e.name] }
    | some (quantity, unit) =>
      let multiplier := quantity / 100 * unit_multipliers unit
      match find_food_calories e.name ds with
      | .error err => .error err
      | .ok .noMatch =>
          .ok { acc with unmatched_foods := acc.unmatched_foods ++ [e.name] }
      | .ok (.found _ d cal p cb f) =>
          .ok { total_calories := acc.total_calories + cal * multiplier,
                total_protein := acc.total_protein + p * multiplier,
                total_carbs := acc.total_carbs + cb * multiplier,
                total_fat := acc.total_fat + f * multiplier,
                breakdown := acc.breakdown ++
                  [⟨d, e.quantity, cal * multiplier, p * multiplier,
                    cb * multiplier, f * multiplier⟩],
                unmatched_foods := acc.unmatched_foods }

/-- The `for entry in food_entries` loop with its running accumulator. -/
def calcLoop (query_item : String) (ds : DataFrame) (acc : CalcResult) :
    List Entry → Except PyErr CalcResult
  | [] => .ok acc
  | e :: rest =>
    match processEntry query_item ds acc e with
    | .error err => .error err
    | .ok acc2 => calcLoop query_item ds acc2 rest

/-- `calculate_nutritional_info(food_entries, query_item, dataset)`
(lines 110–185). -/
def calculate_nutritional_info (food_entries : List Entry)
    (query_item : String) (ds : DataFrame) : Except PyErr CalcResult :=
  calcLoop query_item ds initResult food_entries

/-! ## The UI submission path (`nutrition_tracking_page`, lines 267–346) -/

/-- A Python value passed as an argument at the submission call site. -/
inductive PyVal where
  | entriesV (es : List Entry)
  | strV (s : String)
  | frameV (ds : DataFrame)

/-- The parameter list of `calculate_nutritional_info` (line 110): three
required positional parameters, no defaults. -/
def calcParams : List String := ["food_entries", "query_item", "dataset"]

/-- Python positional-argument binding for a function with only required
positional parameters: a call with the wrong number of arguments
raises TypeError before the body runs. -/
def bindArgs (params : List String) (args : List PyVal) :
    Except PyErr (List (String × PyVal)) :=
  if args.length = params.length then .ok (params.zip args) else .error .typeError

/-- Running the body of `calculate_nutritional_info` on a bound
parameter list. -/
def runCalcBound : List (String × PyVal) → Except PyErr CalcResult
  | [(_, .entriesV es), (_, .strV q), (_, .frameV ds)] =>
      calculate_nutritional_info es q ds
  | _ => .error .typeError

/-- The call at line 313:
`calculate_nutritional_info(food_entries, food_dataset)` — exactly two
positional arguments. -/
def submission_call (entries : List Entry) (ds : DataFrame) :
    Except PyErr CalcResult :=
  match bindArgs calcParams [.entriesV entries, .frameV ds] with
  | .error e => .error e
  | .ok bound => runCalcBound bound

/-- The submission branch of `nutrition_tracking_page` (lines 311–338):
compute the nutrition info, then append a summary row to the log; a
raised exception aborts before any log row is written. -/
def record_meal (entries : List Entry) (ds : DataFrame)
    (log : List CalcResult) : Except PyErr CalcResult × List CalcResult :=
  match submission_call entries ds with
  | .error e => (.error e, log)
  | .ok res => (.ok res, log ++ [res])

/-! ## Helper lemmas -/

lemma floatPrefixRun_eq_takeWhile (l : List String) :
    floatPrefixRun l = l.takeWhile isFloatToken := by
  induction l with
  | nil => rfl
  | cons t ts ih =>
      by_cases h : isFloatToken t <;>
        simp [floatPrefixRun, List.takeWhile_cons, h, ih]

lemma floatPrefixRun_all (l : List String)
    (h : ∀ t ∈ l, isFloatToken t = true) : floatPrefixRun l = l := by
  induction l with
  | nil => rfl
  | cons t ts ih =>
      simp [floatPrefixRun, h t (by simp),
        ih fun x hx => h x (by simp [hx])]

lemma floatPrefixRun_short (w : List String) (y : String) (rest : List String)
    (hw : w.length ≤ 1) (hy : isFloatToken y = false) :
    (floatPrefixRun (w ++ y :: rest)).length ≤ 1 := by
  match w with
  | [] => simp [floatPrefixRun, hy]
  | [z] =>
      by_cases hz : isFloatToken z <;>
        simp [floatPrefixRun, hz, hy]
  | a :: b :: t => simp at hw

lemma length_lastN (n : Nat) (l : List α) :
    (lastN n l).length = min n l.length := by
  simp [lastN]

lemma lastN_append (σ τ : List α) (n : Nat) (h : τ.length ≤ n) :
    lastN n (σ ++ τ) = lastN (n - τ.length) σ ++ τ := by
  unfold lastN
  rw [List.reverse_append, List.take_append_eq_append_take,
      List.take_of_length_le (by simpa using h)]
  simp

lemma head_mem {α : Type} {l : List α} {a : α} (h : l.head? = some a) :
    a ∈ l := by
  cases l with
  | nil => simp at h
  | cons x xs => simp [List.head?] at h; simp [h]

lemma listIsInfix_nil (l : List Char) : listIsInfix [] l = true := by
  cases l <;> rfl

lemma pyLower_eq_empty_iff (s : String) : pyLower s = "" ↔ s = "" := by
  constructor
  · intro h
    have hd : s.data.map Char.toLower = [] := congrArg String.data h
    have hnil : s.data = [] := List.map_eq_nil_iff.mp hd
    cases s with
    | mk data => subst hnil; rfl
  · intro h; rw [h]; rfl

lemma contains_iff_mem (l : List String) (a : String) :
    l.contains a = true ↔ a ∈ l := by
  simp

lemma hasMatcherCols_spec {ds : DataFrame} (h : hasMatcherCols ds = true) :
    ds.cols.contains descrCol = true ∧ ds.cols.contains energyCol = true ∧
    ds.cols.contains proteinCol = true ∧ ds.cols.contains carbCol = true ∧
    ds.cols.contains fatCol = true := by
  unfold hasMatcherCols matcher_columns at h
  simp only [List.all_cons, List.all_nil, Bool.and_true, Bool.and_eq_true] at h
  exact ⟨h.1, h.2.1, h.2.2.1, h.2.2.2.1, h.2.2.2.2⟩

lemma extractRow_ok {ds : DataFrame} {r : Row} {mt mt' : MatchType}
    {d : String} {cal p cb f : ℚ}
    (h : extractRow ds r mt = .ok (.found mt' d cal p cb f)) :
    d = strAt r descrCol ∧ cal = 100 * numAt r energyCol ∧
    p = 100 * numAt r proteinCol ∧ cb = 100 * numAt r carbCol ∧
    f = 100 * numAt r fatCol := by
  unfold extractRow at h
  split at h
  · rw [Except.ok.injEq] at h
    unfold rowInfo at h
    rw [FoodInfo.found.injEq] at h
    obtain ⟨-, hd, hcal, hp, hcb, hf⟩ := h
    exact ⟨hd.symm, hcal.symm, hp.symm, hcb.symm, hf.symm⟩
  · simp at h

/-! ## Concrete datasets used by witnesses -/

/-- The spec's banana example row, with the stored values as exact
fractions. -/
def bananaRow : Row :=
  [(descrCol, .str "Banana, raw"), (energyCol, .num (89/100)),
   (proteinCol, .num (11/1000)), (carbCol, .num (23/100)),
   (fatCol, .num (3/1000))]

/-- A one-row dataset holding the banana example. -/
def bananaDF : DataFrame := ⟨matcher_columns, [bananaRow]⟩

/-- A row whose description exactly matches the query "apple". -/
def appleExactRow : Row :=
  [(descrCol, .str "Apple"), (energyCol, .num 1), (proteinCol, .num 2),
   (carbCol, .num 3), (fatCol, .num 4)]

/-- A dataset putting a partial match before and after the exact
match. -/
def appleDF : DataFrame :=
  ⟨matcher_columns,
   [[(descrCol, .str "Green apple pie"), (energyCol, .num 5),
     (proteinCol, .num 5), (carbCol, .num 5), (fatCol, .num 5)],
    appleExactRow,
    [(descrCol, .str "apple juice"), (energyCol, .num 6),
     (proteinCol, .num 6), (carbCol, .num 6), (fatCol, .num 6)]]⟩

/-- A dataset whose source file lacked the protein column, after the
loader's projection. -/
def noProteinDF : DataFrame :=
  ⟨load_projection [descrCol, energyCol, carbCol, fatCol],
   [[(descrCol, .str "Apple"), (energyCol, .num 1),
     (carbCol, .num 3), (fatCol, .num 4)]]⟩

/-! ## Claim C8: the UI submission arity mismatch -/

/-- C8: for every submitted form with a non-empty list of food entries,
the UI-facing submission path invokes `calculate_nutritional_info`
with only two arguments although it has three required parameters, so
every meal-recording submission raises TypeError before any totals
are computed or any log row is written (the log is unchanged). -/
theorem c8_submission_arity (entries : List Entry) (ds : DataFrame)
    (log : List CalcResult) (_hne : entries ≠ []) :
    record_meal entries ds log = (.error .typeError, log) := rfl

/-- Witness for C8 at a concrete submission. -/
theorem c8_submission_arity_witness :
    record_meal [⟨"apple", "100g"⟩] ⟨matcher_columns, []⟩ [] =
      (.error .typeError, []) :=
  c8_submission_arity _ _ _ (by decide)

/-! ## Claim C1: direction of the cleaner's numeric-run scan -/

/-- C1 counterexample: on the row `food x 1 2 3 4`, the maximal
contiguous float run taken from the right end of the last 5 tokens
has 4 tokens, so the claim says the row is kept; the code discards
it, because its scan walks the last-5 window left to right and stops
at the first token (`x`) that fails to parse. -/
theorem c1_right_run_counterexample :
    (spec_trailing_float_run (lastN 5 ["food", "x", "1", "2", "3", "4"])).length = 4 ∧
    cleanRowTokens ["food", "x", "1", "2", "3", "4"] = none := by decide

/-- C1 (amended): the numeric fields kept are the maximal contiguous
run, taken from the LEFT end of the row's last 5 whitespace tokens
(stopping at the first token that fails to parse as a float); the row
is discarded exactly when it has fewer than 6 tokens or that run has
fewer than 4 tokens; otherwise all row tokens except the last
`run-length` many are joined with underscores into the description
field. -/
theorem c1_left_scan_characterization (parts : List String) (desc : String)
    (nums : List String) :
    (cleanRowTokens parts = some (desc, nums) ↔
      6 ≤ parts.length ∧ nums = (lastN 5 parts).takeWhile isFloatToken ∧
      4 ≤ nums.length ∧
      desc = String.intercalate "_" (parts.take (parts.length - nums.length)))
    ∧ (cleanRowTokens parts = none ↔ parts.length < 6 ∨
        ((lastN 5 parts).takeWhile isFloatToken).length < 4) := by
  unfold cleanRowTokens
  rw [floatPrefixRun_eq_takeWhile]
  by_cases h6 : parts.length < 6
  · rw [if_pos h6]
    constructor
    · constructor
      · intro h; exact absurd h (by simp)
      · rintro ⟨hge, -⟩; omega
    · constructor
      · intro _; exact Or.inl h6
      · intro _; rfl
  · rw [if_neg h6]
    by_cases h4 : ((lastN 5 parts).takeWhile isFloatToken).length < 4
    · rw [if_pos h4]
      constructor
      · constructor
        · intro h; exact absurd h (by simp)
        · rintro ⟨-, hn, hlen, -⟩; rw [hn] at hlen; omega
      · constructor
        · intro _; exact Or.inr h4
        · intro _; rfl
    · rw [if_neg h4]
      constructor
      · constructor
        · intro h
          rw [Option.some.injEq, Prod.mk.injEq] at h
          obtain ⟨hd, hn⟩ := h
          refine ⟨by omega, hn.symm, ?_, ?_⟩
          · rw [← hn]; omega
          · rw [← hn]; exact hd.symm
        · rintro ⟨-, hn, -, hd⟩
          subst hn; subst hd; rfl
      · constructor
        · intro h; exact absurd h (by simp)
        · rintro (hc | hc) <;> omega

/-- Witness for the amended C1 on a concrete kept row. -/
theorem c1_left_scan_characterization_witness :
    cleanRowTokens ["desc", "5", "1", "2", "3", "4"] =
      some ("desc", ["5", "1", "2", "3", "4"]) := by
  exact ((c1_left_scan_characterization
    ["desc", "5", "1", "2", "3", "4"] "desc" ["5", "1", "2", "3", "4"]).1).mpr
    (by decide)

/-! ## Claim C7: cleaner round-trip -/

/-- C7 counterexample: a data row consisting of exactly 5 tokens that
all parse as floats (its maximal trailing float run is all 5 tokens)
is nevertheless dropped by the cleaner, because rows with fewer than
6 tokens are skipped before the numeric scan. -/
theorem c7_all_numeric_row_counterexample :
    (spec_trailing_float_run (pySplit "1 2 3 4 5")).length = 5 ∧
    cleanedLines ["H", "1 2 3 4 5"] = some ["H"] := by decide

/-- C7 (amended): every data row with at least 6 tokens whose last 5
tokens all parse as floats is kept (with those 5 tokens as its
numeric fields); and every row whose trailing numeric-looking run has
exactly 3 tokens is dropped. -/
theorem c7_round_trip_amended :
    (∀ parts : List String, 6 ≤ parts.length →
        (∀ t ∈ lastN 5 parts, isFloatToken t = true) →
        cleanRowTokens parts =
          some (String.intercalate "_" (parts.take (parts.length - 5)),
                lastN 5 parts))
    ∧ (∀ pre : List String, ∀ y f1 f2 f3 : String,
        isFloatToken y = false → isFloatToken f1 = true →
        isFloatToken f2 = true → isFloatToken f3 = true →
        cleanRowTokens (pre ++ [y, f1, f2, f3]) = none) := by
  constructor
  · intro parts h6 hall
    have hlen : (lastN 5 parts).length = 5 := by
      rw [length_lastN]; omega
    have hrun : floatPrefixRun (lastN 5 parts) = lastN 5 parts :=
      floatPrefixRun_all _ hall
    unfold cleanRowTokens
    rw [if_neg (by omega), hrun, hlen, if_neg (by omega)]
  · intro pre y f1 f2 f3 hy h1 h2 h3
    by_cases h6 : (pre ++ [y, f1, f2, f3]).length < 6
    · unfold cleanRowTokens
      rw [if_pos h6]
    · have hdec : lastN 5 (pre ++ [y, f1, f2, f3]) =
          lastN 1 pre ++ y :: [f1, f2, f3] :=
        lastN_append pre [y, f1, f2, f3] 5 (by simp)
      have hshort :
          (floatPrefixRun (lastN 5 (pre ++ [y, f1, f2, f3]))).length ≤ 1 := by
        rw [hdec]
        exact floatPrefixRun_short _ _ _ (by rw [length_lastN]; omega) hy
      unfold cleanRowTokens
      rw [if_neg h6, if_pos (by omega)]

/-- Witness for the amended C7: a kept 6-token row and a dropped row
whose trailing float run has 3 tokens. -/
theorem c7_round_trip_amended_witness :
    cleanRowTokens ["food", "1", "2", "3", "4", "5"] =
      some ("food", ["1", "2", "3", "4", "5"]) ∧
    cleanRowTokens (["a", "b"] ++ ["x", "1", "2", "3"]) = none := by
  constructor
  · have h := c7_round_trip_amended.1 ["food", "1", "2", "3", "4", "5"]
      (by decide) (by decide)
    simpa using h
  · exact c7_round_trip_amended.2 ["a", "b"] "x" "1" "2" "3"
      (by decide) (by decide) (by decide) (by decide)

/-! ## Claim C2: the matcher scales stored values by exactly 100 -/

/-- C2: whenever the matcher returns a match, each returned nutrient
value is exactly 100 times the corresponding stored value of some
dataset record (and the returned description is that record's); in
particular, on the banana example with quantity "200g" the aggregate
calories are 0.89·100·2 = 178 and the protein is 0.011·100·2 = 2.2
(= 11/5). -/
theorem c2_matcher_scales_by_100 :
    (∀ (ds : DataFrame) (name : String) (mt : MatchType) (d : String)
        (cal p cb f : ℚ),
      find_food_calories name ds = .ok (.found mt d cal p cb f) →
      ∃ r ∈ ds.rows, d = strAt r descrCol ∧
        cal = 100 * numAt r energyCol ∧ p = 100 * numAt r proteinCol ∧
        cb = 100 * numAt r carbCol ∧ f = 100 * numAt r fatCol)
    ∧ calculate_nutritional_info [⟨"banana", "200g"⟩] "" bananaDF =
        .ok ⟨178, 11/5, 46, 3/5,
             [⟨"Banana, raw", "200g", 178, 11/5, 46, 3/5⟩], []⟩ := by
  constructor
  · intro ds name mt d cal p cb f h
    unfold find_food_calories at h
    split at h
    · split at h
      · next r heq =>
          exact ⟨r, List.mem_of_mem_filter (head_mem heq), extractRow_ok h⟩
      · split at h
        · next r heq =>
            exact ⟨r, List.mem_of_mem_filter (head_mem heq), extractRow_ok h⟩
        · simp at h
    · simp at h
  · with_unfolding_all decide

/-- Witness for C2 at the banana example. -/
theorem c2_matcher_scales_by_100_witness :
    ∃ r ∈ bananaDF.rows, "Banana, raw" = strAt r descrCol ∧
      (89 : ℚ) = 100 * numAt r energyCol ∧
      (11/10 : ℚ) = 100 * numAt r proteinCol ∧
      (23 : ℚ) = 100 * numAt r carbCol ∧
      (3/10 : ℚ) = 100 * numAt r fatCol :=
  c2_matcher_scales_by_100.1 bananaDF "banana" .substring "Banana, raw"
    89 (11/10) 23 (3/10) (by with_unfolding_all decide)

/-! ## Claim C4: exact match takes precedence over partial match -/

/-- C4: whenever some record's lower-cased description equals the
lower-cased query, the matcher returns an Exact match built from the
first such record in dataset row order, and never falls through to
the partial-substring pass (which runs only when the exact pass
selects nothing). -/
theorem c4_exact_precedence (name : String) (ds : DataFrame) (r : Row)
    (hcols : hasMatcherCols ds = true)
    (hr : (ds.rows.filter (isExactMatch (pyLower name))).head? = some r) :
    find_food_calories name ds = .ok (rowInfo r .exact) := by
  obtain ⟨h1, h2, h3, h4, h5⟩ := hasMatcherCols_spec hcols
  have m2 := (contains_iff_mem _ _).mp h2
  have m3 := (contains_iff_mem _ _).mp h3
  have m4 := (contains_iff_mem _ _).mp h4
  have m5 := (contains_iff_mem _ _).mp h5
  unfold find_food_calories
  rw [if_pos h1, hr]
  show extractRow ds r .exact = .ok (rowInfo r .exact)
  unfold extractRow
  rw [if_pos (by simp [m2, m3, m4, m5])]

/-- Witness for C4: the exact row "Apple" is returned even though the
dataset also holds partial matches before and after it. -/
theorem c4_exact_precedence_witness :
    find_food_calories "Apple" appleDF = .ok (rowInfo appleExactRow .exact) :=
  c4_exact_precedence "Apple" appleDF appleExactRow (by decide)
    (by with_unfolding_all decide)

/-! ## Claim C9: missing allow-listed columns make the matcher raise -/

/-- C9: when the loader's allow-list projection dropped one of the five
columns the matcher reads (because the source file lacked it), a
matcher call on a name with an exact or partial hit raises KeyError
instead of returning a result or the no-match sentinel. -/
theorem c9_missing_column (srcCols : List String) (ds : DataFrame)
    (name : String) (c : String)
    (_hproj : ds.cols = load_projection srcCols)
    (hc : c ∈ matcher_columns) (hmiss : c ∉ ds.cols)
    (hmatch : ∃ r ∈ ds.rows, isExactMatch (pyLower name) r = true ∨
        isPartialHit (pyLower name) r = true) :
    find_food_calories name ds = .error .keyError := by
  unfold find_food_calories
  by_cases hdc : ds.cols.contains descrCol = true
  · rw [if_pos hdc]
    have hext : ∀ (r : Row) (mt : MatchType),
        extractRow ds r mt = .error .keyError := by
      intro r mt
      unfold extractRow
      rw [if_neg ?_]
      intro hcond
      simp only [Bool.and_eq_true] at hcond
      obtain ⟨⟨⟨he, hp⟩, hcb⟩, hf⟩ := hcond
      unfold matcher_columns at hc
      simp only [List.mem_cons, List.not_mem_nil, or_false] at hc
      rcases hc with hc | hc | hc | hc | hc <;> subst hc
      · exact hmiss ((contains_iff_mem _ _).mp hdc)
      · exact hmiss ((contains_iff_mem _ _).mp he)
      · exact hmiss ((contains_iff_mem _ _).mp hp)
      · exact hmiss ((contains_iff_mem _ _).mp hcb)
      · exact hmiss ((contains_iff_mem _ _).mp hf)
    split
    · next r heq => exact hext r _
    · next heq =>
        split
        · next r heq2 => exact hext r _
        · next heq2 =>
            exfalso
            obtain ⟨r, hrmem, hor⟩ := hmatch
            rw [List.head?_eq_none_iff] at heq heq2
            cases hor with
            | inl hex =>
                have : r ∈ ds.rows.filter (isExactMatch (pyLower name)) :=
                  List.mem_filter.mpr ⟨hrmem, hex⟩
                rw [heq] at this
                simp at this
            | inr hpar =>
                have : r ∈ ds.rows.filter (isPartialHit (pyLower name)) :=
                  List.mem_filter.mpr ⟨hrmem, hpar⟩
                rw [heq2] at this
                simp at this
  · rw [if_neg hdc]

/-- Witness for C9 on a dataset whose source lacked the protein
column. -/
theorem c9_missing_column_witness :
    find_food_calories "apple" noProteinDF = .error .keyError :=
  c9_missing_column [descrCol, energyCol, carbCol, fatCol] noProteinDF
    "apple" proteinCol (by with_unfolding_all decide) (by decide)
    (by with_unfolding_all decide)
    ⟨[(descrCol, .str "Apple"), (energyCol, .num 1),
      (carbCol, .num 3), (fatCol, .num 4)],
     by with_unfolding_all decide, Or.inl (by with_unfolding_all decide)⟩

/-! ## Claim C10: the empty query always partially matches -/

/-- C10: on a non-empty dataset (with the matcher's columns) in which no
description is the empty string, the matcher applied to the empty
query returns a Partial match built from the dataset's first row —
never the no-match sentinel — since every lower-cased description
contains the empty string as a substring. -/
theorem c10_empty_query (ds : DataFrame) (r : Row)
    (hcols : hasMatcherCols ds = true)
    (hhead : ds.rows.head? = some r)
    (hne : ∀ r2 ∈ ds.rows, strAt r2 descrCol ≠ "") :
    find_food_calories "" ds = .ok (rowInfo r .substring) := by
  obtain ⟨h1, h2, h3, h4, h5⟩ := hasMatcherCols_spec hcols
  have m2 := (contains_iff_mem _ _).mp h2
  have m3 := (contains_iff_mem _ _).mp h3
  have m4 := (contains_iff_mem _ _).mp h4
  have m5 := (contains_iff_mem _ _).mp h5
  have hex : ds.rows.filter (isExactMatch (pyLower "")) = [] := by
    rw [List.filter_eq_nil_iff]
    intro r2 hr2
    unfold isExactMatch
    simp only [beq_iff_eq, ne_eq]
    intro hcon
    exact hne r2 hr2 ((pyLower_eq_empty_iff _).mp hcon)
  have hpart : ds.rows.filter (isPartialHit (pyLower "")) = ds.rows := by
    rw [List.filter_eq_self]
    intro r2 _
    exact listIsInfix_nil _
  unfold find_food_calories
  rw [if_pos h1, hex]
  show (match (ds.rows.filter (isPartialHit (pyLower ""))).head? with
        | some r => extractRow ds r .substring
        | none => Except.ok FoodInfo.noMatch) = .ok (rowInfo r .substring)
  rw [hpart, hhead]
  show extractRow ds r .substring = .ok (rowInfo r .substring)
  unfold extractRow
  rw [if_pos (by simp [m2, m3, m4, m5])]

/-- Witness for C10 on the apple dataset. -/
theorem c10_empty_query_witness :
    find_food_calories "" appleDF =
      .ok (rowInfo [(descrCol, Val.str "Green apple pie"), (energyCol, .num 5),
        (proteinCol, .num 5), (carbCol, .num 5), (fatCol, .num 5)] .substring) :=
  c10_empty_query appleDF _ (by decide) (by with_unfolding_all decide)
    (by with_unfolding_all decide)

/-! ## Claim C3: the quantity scale factor -/

/-- C3: for every quantity string parsing to magnitude m and unit u, the
scale factor applied to matched nutrient values is m/100 times the
unit multiplier, where the multiplier is 1 for "g", 1 for "ml", 100
for "piece" and 1 for any unrecognized unit; e.g. "200g" gives 2,
"2piece" gives 2, "50ml" gives 1/2. -/
theorem c3_scale_factor :
    (∀ (qs : String) (m : ℚ) (u : String), parseQuantity qs = some (m, u) →
        entryScaleFactor qs = some (m / 100 * unit_multipliers u))
    ∧ unit_multipliers "g" = 1 ∧ unit_multipliers "ml" = 1 ∧
      unit_multipliers "piece" = 100
    ∧ (∀ u : String, u ≠ "g" → u ≠ "ml" → u ≠ "piece" → unit_multipliers u = 1)
    ∧ entryScaleFactor "200g" = some 2 ∧ entryScaleFactor "2piece" = some 2 ∧
      entryScaleFactor "50ml" = some (1/2)
    ∧ (∀ (query : String) (ds : DataFrame) (acc : CalcResult) (e : Entry)
        (fac : ℚ) (mt : MatchType) (d : String) (cal p cb f : ℚ),
        containsSub (pyLower e.name) (pyLower query) = true →
        entryScaleFactor e.quantity = some fac →
        find_food_calories e.name ds = .ok (.found mt d cal p cb f) →
        processEntry query ds acc e =
          .ok ⟨acc.total_calories + cal * fac, acc.total_protein + p * fac,
               acc.total_carbs + cb * fac, acc.total_fat + f * fac,
               acc.breakdown ++
                 [⟨d, e.quantity, cal * fac, p * fac, cb * fac, f * fac⟩],
               acc.unmatched_foods⟩) := by
  refine ⟨?_, rfl, rfl, rfl, ?_, by with_unfolding_all decide,
    by with_unfolding_all decide, by with_unfolding_all decide, ?_⟩
  · intro qs m u h
    unfold entryScaleFactor
    rw [h]
  · intro u h1 h2 h3
    unfold unit_multipliers
    rw [if_neg h1, if_neg h2, if_neg h3]
  · intro query ds acc e fac mt d cal p cb f hq hfac hfind
    unfold entryScaleFactor at hfac
    unfold processEntry
    rw [if_neg (by simp [hq])]
    split at hfac
    · simp at hfac
    · next m u hpq =>
        rw [Option.some.injEq] at hfac
        show ((match find_food_calories e.name ds with
              | .error err => Except.error err
              | .ok .noMatch =>
                  Except.ok { acc with
                    unmatched_foods := acc.unmatched_foods ++ [e.name] }
              | .ok (.found _ d2 cal2 p2 cb2 f2) =>
                  Except.ok
                    { total_calories :=
                        acc.total_calories + cal2 * (m / 100 * unit_multipliers u),
                      total_protein :=
                        acc.total_protein + p2 * (m / 100 * unit_multipliers u),
                      total_carbs :=
                        acc.total_carbs + cb2 * (m / 100 * unit_multipliers u),
                      total_fat :=
                        acc.total_fat + f2 * (m / 100 * unit_multipliers u),
                      breakdown := acc.breakdown ++
                        [⟨d2, e.quantity, cal2 * (m / 100 * unit_multipliers u),
                          p2 * (m / 100 * unit_multipliers u),
                          cb2 * (m / 100 * unit_multipliers u),
                          f2 * (m / 100 * unit_multipliers u)⟩],
                      unmatched_foods := acc.unmatched_foods }) :
            Except PyErr CalcResult) = _
        rw [hfind, hfac]

/-- Witness for C3: the parsed "200g" factor and an unrecognized
unit. -/
theorem c3_scale_factor_witness :
    entryScaleFactor "200g" = some (200 / 100 * unit_multipliers "g") ∧
    unit_multipliers "oz" = 1 :=
  ⟨c3_scale_factor.1 "200g" 200 "g" (by with_unfolding_all decide),
   c3_scale_factor.2.2.2.2.1 "oz" (by decide) (by decide) (by decide)⟩

/-! ## Claim C5: the query-item filter skips entries entirely -/

lemma processEntry_skip (q : String) (ds : DataFrame) (acc : CalcResult)
    (e : Entry) (h : containsSub (pyLower e.name) (pyLower q) = false) :
    processEntry q ds acc e = .ok acc := by
  unfold processEntry
  rw [if_pos (by simp [h])]

lemma calcLoop_skip (q : String) (ds : DataFrame) (e : Entry)
    (ys : List Entry) (h : containsSub (pyLower e.name) (pyLower q) = false) :
    ∀ (xs : List Entry) (acc : CalcResult),
      calcLoop q ds acc (xs ++ e :: ys) = calcLoop q ds acc (xs ++ ys) := by
  intro xs
  induction xs with
  | nil =>
      intro acc
      simp only [List.nil_append]
      simp only [calcLoop, processEntry_skip q ds acc e h]
  | cons x xs ih =>
      intro acc
      simp only [List.cons_append, calcLoop]
      cases hpx : processEntry q ds acc x with
      | error err => rfl
      | ok acc2 =>
          show calcLoop q ds acc2 (xs ++ e :: ys) = calcLoop q ds acc2 (xs ++ ys)
          exact ih acc2

/-- C5: an entry whose name does not contain the query-item filter
(case-insensitively) is skipped entirely: removing it from the entry
list leaves the aggregation result unchanged, so it contributes
nothing to the totals, no breakdown line, and no unmatched-foods
element. -/
theorem c5_filter_skip (query : String) (ds : DataFrame) (e : Entry)
    (xs ys : List Entry)
    (hskip : containsSub (pyLower e.name) (pyLower query) = false) :
    calculate_nutritional_info (xs ++ e :: ys) query ds =
      calculate_nutritional_info (xs ++ ys) query ds := by
  unfold calculate_nutritional_info
  exact calcLoop_skip query ds e ys hskip xs initResult

/-- Witness for C5: dropping the filtered-out "bread" entry leaves the
result unchanged. -/
theorem c5_filter_skip_witness :
    calculate_nutritional_info
        ([⟨"banana", "200g"⟩] ++ ⟨"bread", "100g"⟩ :: []) "banana" bananaDF =
      calculate_nutritional_info ([⟨"banana", "200g"⟩] ++ []) "banana" bananaDF :=
  c5_filter_skip "banana" bananaDF ⟨"bread", "100g"⟩ [⟨"banana", "200g"⟩] []
    (by with_unfolding_all decide)

/-! ## Claim C6: every filtered-in entry is accounted exactly once -/

lemma processEntry_counts (q : String) (ds : DataFrame) (acc : CalcResult)
    (e : Entry) (acc2 : CalcResult)
    (h : processEntry q ds acc e = .ok acc2) :
    acc2.breakdown.length + acc2.unmatched_foods.length =
      acc.breakdown.length + acc.unmatched_foods.length +
        (if containsSub (pyLower e.name) (pyLower q) = true then 1 else 0) := by
  unfold processEntry at h
  by_cases hq : containsSub (pyLower e.name) (pyLower q) = true
  · rw [if_neg (by simp [hq])] at h
    rw [if_pos hq]
    split at h
    · rw [Except.ok.injEq] at h
      subst h
      simp
      omega
    · split at h
      · simp at h
      · rw [Except.ok.injEq] at h
        subst h
        simp
        omega
      · rw [Except.ok.injEq] at h
        subst h
        simp
        omega
  · rw [if_pos (by simp [hq])] at h
    rw [Except.ok.injEq] at h
    subst h
    rw [if_neg hq]
    omega

lemma calcLoop_counts (q : String) (ds : DataFrame) :
    ∀ (l : List Entry) (acc res : CalcResult),
      calcLoop q ds acc l = .ok res →
      res.breakdown.length + res.unmatched_foods.length =
        acc.breakdown.length + acc.unmatched_foods.length +
          (l.filter
            (fun e => containsSub (pyLower e.name) (pyLower q))).length := by
  intro l
  induction l with
  | nil =>
      intro acc res h
      simp only [calcLoop, Except.ok.injEq] at h
      subst h
      simp
  | cons e rest ih =>
      intro acc res h
      simp only [calcLoop] at h
      split at h
      · simp at h
      · next acc2 hpe =>
          have hc := ih acc2 res h
          have hp := processEntry_counts q ds acc e acc2 hpe
          rw [List.filter_cons]
          by_cases hq : containsSub (pyLower e.name) (pyLower q) = true
          · rw [if_pos hq] at hp
            rw [if_pos hq]
            simp only [List.length_cons]
            omega
          · rw [if_neg hq] at hp
            rw [if_neg hq]
            omega

/-- C6: every entry that passes the query-item filter is accounted for
exactly once — as one breakdown line or as one unmatched-foods
element — so the two list lengths sum to the number of filtered-in
entries; in particular entry {name: "xyz123food", quantity: "100g"}
with no matching row lands in unmatched_foods with all totals
unaffected. -/
theorem c6_accounting :
    (∀ (entries : List Entry) (q : String) (ds : DataFrame) (res : CalcResult),
        calculate_nutritional_info entries q ds = .ok res →
        res.breakdown.length + res.unmatched_foods.length =
          (entries.filter
            (fun e => containsSub (pyLower e.name) (pyLower q))).length)
    ∧ calculate_nutritional_info [⟨"xyz123food", "100g"⟩] "" bananaDF =
        .ok ⟨0, 0, 0, 0, [], ["xyz123food"]⟩ := by
  constructor
  · intro entries q ds res h
    have hc := calcLoop_counts q ds entries initResult res h
    simpa [initResult] using hc
  · with_unfolding_all decide

/-- Witness for C6 on a two-entry list: one matched (breakdown) entry
plus one unmatched entry account for both filtered-in entries. -/
theorem c6_accounting_witness :
    ([⟨"Banana, raw", "200g", 178, 11/5, 46, 3/5⟩] : List BreakdownLine).length +
      (["xyz123food"] : List String).length =
      (([⟨"banana", "200g"⟩, ⟨"xyz123food", "100g"⟩] : List Entry).filter
        (fun e => containsSub (pyLower e.name) (pyLower ""))).length :=
  c6_accounting.1 [⟨"banana", "200g"⟩, ⟨"xyz123food", "100g"⟩] "" bananaDF
    ⟨178, 11/5, 46, 3/5, [⟨"Banana, raw", "200g", 178, 11/5, 46, 3/5⟩],
     ["xyz123food"]⟩ (by with_unfolding_all decide)

end HealthTracker
